import Mathlib

/- Shallow embedding of the random-wikiquote library (src/random-wikiquote.js, the
   canonical variant, together with the src/unnamed/part_001 variant where the two
   differ).  JavaScript strings are modelled as Lean strings (the strings of
   interest are ASCII, where the JS UTF-16 length agrees with the Lean codepoint
   length), JS numbers as rationals, settled promises as Except String, and the
   remote JSON responses together with the Math.random draws as an explicit
   per-attempt environment. -/

namespace Wikiquote

/- Module-level mutable configuration (minLength, maxLength, numericLimit of
   src/random-wikiquote.js lines 20-26) modelled as an explicit record passed to
   every reader; a setter call replaces the record, so a configuration change made
   before a validation call is visible to it by construction. -/
structure Config where
  minLength : Rat
  maxLength : Rat
  numericLimit : Rat

/- Defaults from src/random-wikiquote.js lines 20-22. -/
def defaultConfig : Config := { minLength := 20, maxLength := 300, numericLimit := 1/10 }

/- Number of decimal-digit characters of a string: (s.match(/\d/g) || []).length. -/
def countDigits (s : String) : Nat := (s.toList.filter Char.isDigit).length

/- isQuoteValid, src/random-wikiquote.js lines 28-38.  The argument is an
   Option String: none models an absent (null / undefined) candidate; the JS
   falsiness test (!quote) is true exactly for none and for the empty string. -/
def isQuoteValid (cfg : Config) (quote : Option String) : Bool :=
  match quote with
  | none => false
  | some s =>
    if s = "" then false
    else
      let length := s.length
      let digitPercentage : Rat := (countDigits s : Rat) / (length : Rat)
      if (length : Rat) < cfg.minLength ∨ (length : Rat) > cfg.maxLength ∨
          digitPercentage > cfg.numericLimit then false
      else true

/- digitFraction: the specification's digitRatio, countDigits(s) / length(s) as a
   rational; on the empty string this is 0 / 0 = 0 by the Lean convention. -/
def digitFraction (s : String) : Rat := (countDigits s : Rat) / (s.length : Rat)

/- Modelled from the spec: the right-hand side of the specification's validator
   contract, written from the spec's words (section 8): minLength ≤ len(s) ≤
   maxLength and digitRatio(s) ≤ numericLimit. -/
def specValidCond (cfg : Config) (s : String) : Prop :=
  cfg.minLength ≤ (s.length : Rat) ∧ (s.length : Rat) ≤ cfg.maxLength ∧
    digitFraction s ≤ cfg.numericLimit

instance (cfg : Config) (s : String) : Decidable (specValidCond cfg s) := by
  unfold specValidCond
  infer_instance

/- Division-guarded variant of the validator: the digit-percentage division is
   performed only after checking the length is nonzero, and returns none when the
   division would be taken on a zero length.  Used to express that the real
   validator never divides by a zero length. -/
def isQuoteValidChecked (cfg : Config) (quote : Option String) : Option Bool :=
  match quote with
  | none => some false
  | some s =>
    if s = "" then some false
    else
      let length := s.length
      if length = 0 then none
      else
        let digitPercentage : Rat := (countDigits s : Rat) / (length : Rat)
        some (if (length : Rat) < cfg.minLength ∨ (length : Rat) > cfg.maxLength ∨
            digitPercentage > cfg.numericLimit then false
          else true)

/- Markup tree produced by the external DOM parser (DOMParser.parseFromString):
   an element with an upper-case tagName and an ordered child list, or a text node.
   The markup parser itself is an external collaborator of the library; the tree is
   the interface the scraping code works on. -/
inductive Node where
  | elem (tag : String) (children : List Node)
  | text (s : String)

/- ELEMENTS_TO_KEEP, src/random-wikiquote.js lines 15-18 (identical to the
   childrenToKeep list of src/unnamed/part_001 lines 48-51). -/
def ELEMENTS_TO_KEEP : List String :=
  ["A", "B", "I", "STRONG", "EM", "MARK", "ABBR", "SMALL",
   "DEL", "INS", "SUB", "SUP", "PRE", "CODE", "DFN", "SAMP"]

mutual
/- querySelectorAll of the CSS selector div > ul > li: every LI element whose
   parent is a UL whose parent is a DIV, in document (pre-)order.  The two extra
   string arguments carry the tags of the parent and grandparent of the node under
   inspection ("" at the root). -/
def collectLis (parentTag grandTag : String) : Node → List Node
  | .text _ => []
  | .elem tag children =>
    (if tag = "LI" ∧ parentTag = "UL" ∧ grandTag = "DIV" then [Node.elem tag children] else [])
      ++ collectLisList tag parentTag children
def collectLisList (parentTag grandTag : String) : List Node → List Node
  | [] => []
  | n :: ns => collectLis parentTag grandTag n ++ collectLisList parentTag grandTag ns
end

/- querySelectorAll from the document root.  The markup string data.parse.text
   ["*"] returned by the remote API is a single DIV-rooted fragment, so the root
   passed here is that DIV (its own parents, BODY and HTML, match no selector). -/
def querySelectorAllDivUlLi (root : Node) : List Node := collectLis "" "" root

mutual
/- Concatenated text content of a node, modelling the innerText / outerText read
   of the rendered inline content (the quote items contain no hidden or block
   content beyond what the replacement pass has already turned into plain text). -/
def textOf : Node → String
  | .text s => s
  | .elem _ children => textOfList children
def textOfList : List Node → String
  | [] => ""
  | n :: ns => textOf n ++ textOfList ns
end

/- The replacement loop of src/random-wikiquote.js lines 94-99: every immediate
   child element of the list item whose tagName is not in the keep list is replaced
   by a single-space text node; immediate text children are untouched; kept element
   children keep their whole subtree. -/
def replaceUnwanted (keep : List String) : Node → Node
  | .elem tag children =>
    .elem tag (children.map fun c =>
      match c with
      | .elem t cs => if t ∈ keep then Node.elem t cs else Node.text " "
      | .text s => Node.text s)
  | .text s => .text s

/- Whitespace class of the JS regex \s restricted to the ASCII range (space, tab,
   line feed, carriage return, vertical tab, form feed). -/
def isWs (c : Char) : Bool :=
  c = ' ' ∨ c = '\t' ∨ c = '\n' ∨ c = '\r' ∨ c = Char.ofNat 11 ∨ c = Char.ofNat 12

/- replace(/\s\s+/gmi, ' '): every maximal run of two or more whitespace
   characters becomes one ASCII space; a lone whitespace character is unchanged.
   The Bool flag records that the scanner is inside a run whose single replacement
   space has already been emitted. -/
def collapseAux : Bool → List Char → List Char
  | _, [] => []
  | true, c :: rest =>
    if isWs c then collapseAux true rest
    else c :: collapseAux false rest
  | false, c :: rest =>
    if isWs c then
      match rest with
      | [] => [c]
      | d :: _ => if isWs d then ' ' :: collapseAux true rest else c :: collapseAux false rest
    else c :: collapseAux false rest

def collapseWs (cs : List Char) : List Char := collapseAux false cs

/- String.prototype.trim: drop whitespace from both ends. -/
def trimWs (cs : List Char) : List Char :=
  (((cs.dropWhile isWs).reverse).dropWhile isWs).reverse

/- The plainQuote processing of src/random-wikiquote.js lines 101-104 for one
   top-level list item: replace non-kept immediate children with spaces, read the
   visible text, collapse whitespace runs, trim. -/
def processItem (li : Node) : String :=
  ((trimWs (collapseWs (textOf (replaceUnwanted ELEMENTS_TO_KEEP li)).toList)).asString)

/- All candidate strings of one section markup tree, in document order: the body
   of the extraction loop of src/random-wikiquote.js lines 92-104, before the
   validity filter of line 106. -/
def candidateStrings (root : Node) : List String :=
  (querySelectorAllDivUlLi root).map processItem

/- One entry of data.parse.sections in the sections response: the section index
   used for follow-up requests and the dotted outline number. -/
structure SectionEntry where
  index : String
  number : String

/- Payload of a successful sections response, data.parse. -/
structure ParseSections where
  title : String
  sections : List SectionEntry

/- Payload of a successful section-render response, data.parse: the canonical
   title and the markup tree parsed from data.parse.text["*"] (DIV-rooted). -/
structure ParseText where
  title : String
  textStar : Node

/- Result record of getSectionsForPage. -/
structure SectionOutline where
  pageId : Nat
  titles : String
  sections : List String

/- Result record of getQuotesForSection. -/
structure QuoteBatch where
  titles : String
  quotes : List String

/- Final result record: quote is an Option String because the JS field holds
   whatever indexing into the batch produced (undefined when out of range). -/
structure QuoteResult where
  title : String
  quote : Option String

/- JS String.prototype.split with a one-character separator, the call
   number.split('.') of src/random-wikiquote.js line 137: cut at every occurrence
   of the separator, keeping empty pieces ("" splits to [""], "a..b" to
   ["a", "", "b"]). -/
def splitOnChar (sep : Char) : List Char → List (List Char)
  | [] => [[]]
  | c :: rest =>
    let r := splitOnChar sep rest
    if c = sep then [] :: r
    else
      match r with
      | [] => [[c]]
      | g :: gs => (c :: g) :: gs

def jsSplit (s : String) (sep : Char) : List String :=
  (splitOnChar sep s.toList).map List.asString

/- The section-collection loop of src/random-wikiquote.js lines 133-144: keep the
   index of every section whose dotted number has more than one component and
   whose first component is "1"; if none qualify, use the single literal index
   "1". -/
def sectionIndexesOf (sections : List SectionEntry) : List String :=
  let sectionArray := (sections.filter fun s =>
    let splitNum := jsSplit s.number '.'
    decide (splitNum.length > 1) && decide (splitNum.headD "" = "1")).map SectionEntry.index
  if sectionArray = [] then ["1"] else sectionArray

/- Modelled from the spec: the SectionSelector algorithm in the specification's
   words (section 4.2): collect every section whose dotted path has at least two
   components and whose first component equals "1"; if that set is empty, fall
   back to the single section indexed "1". -/
def specSectionIndexes (sections : List SectionEntry) : List String :=
  let collected := (sections.filter fun s =>
    decide (2 ≤ (jsSplit s.number '.').length) &&
      decide ((jsSplit s.number '.').head? = some "1")).map SectionEntry.index
  if collected = [] then ["1"] else collected

/- getSectionsForPage, src/random-wikiquote.js lines 122-147, with the already
   parsed remote response supplied as an argument (a transport or JSON failure is
   the error case of the Except). -/
def getSectionsForPage (pageId : Nat) (resp : Except String ParseSections) :
    Except String SectionOutline :=
  match resp with
  | .error e => .error e
  | .ok d => .ok { pageId := pageId, titles := d.title, sections := sectionIndexesOf d.sections }

/- getQuotesForSection, src/random-wikiquote.js lines 72-114.  The response is
   the remote outcome for the requested page and section: error for a transport
   failure, ok none when the body has no parse member (invalid section), ok (some
   d) otherwise.  The loop keeps exactly the processed items that pass
   isQuoteValid, and an empty result list is rejected. -/
def getQuotesForSection (cfg : Config) (_pageId : Nat) (_sectionIndex : String)
    (resp : Except String (Option ParseText)) : Except String QuoteBatch :=
  match resp with
  | .error e => .error e
  | .ok none => .error "Section is not valid."
  | .ok (some d) =>
    let parsedQuotes := (candidateStrings d.textStar).filter fun q => isQuoteValid cfg (some q)
    if parsedQuotes = [] then .error "Section has no valid quote."
    else .ok { titles := d.title, quotes := parsedQuotes }

/- getQuotesForSection of the src/unnamed/part_001 variant (lines 46-85): same
   selection and replacement pass, but the raw outerText of every item is pushed
   with no whitespace normalisation, no validity filter and no empty-batch
   rejection; the childrenToKeep list there equals ELEMENTS_TO_KEEP. -/
def getQuotesForSectionP1 (_pageId : Nat) (_sectionIndex : String)
    (resp : Except String (Option ParseText)) : Except String QuoteBatch :=
  match resp with
  | .error e => .error e
  | .ok none => .error "Page has no valid section"
  | .ok (some d) =>
    .ok { titles := d.title,
          quotes := (querySelectorAllDivUlLi d.textStar).map
            fun li => textOf (replaceUnwanted ELEMENTS_TO_KEEP li) }

/- getRandomPage, src/random-wikiquote.js lines 152-166: the remote response
   carries the id data.query.random[0].id, with 0 standing for any falsy id value
   (the code rejects on !id). -/
def getRandomPage (resp : Except String Nat) : Except String Nat :=
  match resp with
  | .error e => .error e
  | .ok id => if id = 0 then .error "Invalid random page id." else .ok id

/- randomNum, src/random-wikiquote.js line 176: Math.floor(r * max) for a draw r
   of Math.random(), which lies in [0, 1). -/
def randomNum (r : Rat) (max : Nat) : Nat := (Int.floor (r * (max : Rat))).toNat

/- randomSection, line 177: index into the section list (getD stands for the JS
   index read, which is total on the in-range indexes produced by a [0,1) draw). -/
def randomSection (r : Rat) (sections : List String) : String :=
  sections.getD (randomNum r sections.length) ""

/- randomQuote, line 178: index into the quote list; an out-of-range read is the
   JS undefined, hence the Option. -/
def randomQuote (r : Rat) (quotes : QuoteBatch) : Option String :=
  quotes.quotes.get? (randomNum r quotes.quotes.length)

/- chooseQuote, line 179. -/
def chooseQuote (r : Rat) (quotes : QuoteBatch) : QuoteResult :=
  { title := quotes.titles, quote := randomQuote r quotes }

/- checkQuote of the src/unnamed/part_001 variant (lines 149-164): the falsiness
   test !quote.quote is true for undefined and for the empty string. -/
def checkQuote (cfg : Config) (qr : QuoteResult) : Except String QuoteResult :=
  match qr.quote with
  | none => .error "No quote found"
  | some s =>
    if s = "" then .error "No quote found"
    else
      let length := s.length
      let digitPercentage : Rat := (countDigits s : Rat) / (length : Rat)
      if (length : Rat) < cfg.minLength then .error "Quote is too short"
      else if (length : Rat) > cfg.maxLength then .error "Quote is too long"
      else if digitPercentage > cfg.numericLimit then .error "Quote is too numeric"
      else .ok qr

/- Choosing one candidate at random from a batch and checking only that one: the
   composition .then(chooseQuote).then(checkQuote) of src/unnamed/part_001 lines
   180-181. -/
def chooseAndCheck (cfg : Config) (r : Rat) (quotes : QuoteBatch) : Except String QuoteResult :=
  checkQuote cfg (chooseQuote r quotes)

/- Everything one attempt of mainSequence consumes from the outside world: the
   three parsed remote responses and the two Math.random() draws.  The remote
   responses are indexed per attempt because every attempt issues fresh requests. -/
structure AttemptEnv where
  randomResp : Except String Nat
  sectionsResp : Except String ParseSections
  quotesResp : Except String (Option ParseText)
  rSection : Rat
  rQuote : Rat

/- One mainSequence pass of src/random-wikiquote.js lines 191-198 (the canonical
   variant, whose batch is pre-filtered and which resolves the chosen candidate
   without a further check); the promise .then chain is Except.bind / Except.map. -/
def attemptPrimary (cfg : Config) (env : AttemptEnv) : Except String QuoteResult :=
  (getRandomPage env.randomResp).bind fun pageId =>
    (getSectionsForPage pageId env.sectionsResp).bind fun data =>
      (getQuotesForSection cfg data.pageId (randomSection env.rSection data.sections)
        env.quotesResp).map fun quotes => chooseQuote env.rQuote quotes

/- One mainSequence pass of src/unnamed/part_001 lines 176-184: unfiltered
   extraction followed by checkQuote on the single chosen candidate. -/
def attemptP1 (cfg : Config) (env : AttemptEnv) : Except String QuoteResult :=
  (getRandomPage env.randomResp).bind fun pageId =>
    (getSectionsForPage pageId env.sectionsResp).bind fun data =>
      (getQuotesForSectionP1 data.pageId (randomSection env.rSection data.sections)
        env.quotesResp).bind fun quotes => chooseAndCheck cfg env.rQuote quotes

/- RETRY_LIMIT, src/random-wikiquote.js line 14 (the same value 7 is used by the
   part_001 variant). -/
def RETRY_LIMIT : Nat := 7

/- The checkRetry / mainSequence recursion of src/random-wikiquote.js lines
   181-200, with the attempt outcomes supplied as a function of the retry counter.
   The first component is the settled promise, the second the number of attempts
   performed.  The recursion is driven by a fuel argument that equals
   limit - numRetry on every reachable call, so the fuel-exhausted arm is dead
   code for the actual entry point below. -/
def mainSeqFuel (attempt : Nat → Except String QuoteResult) (limit : Nat) :
    Nat → Nat → Except String QuoteResult × Nat
  | 0, numRetry => (.error "Retry limit reached", numRetry)
  | fuel + 1, numRetry =>
    match attempt numRetry with
    | .ok q => (.ok q, numRetry + 1)
    | .error _ =>
      if numRetry + 1 ≥ limit then (.error "Retry limit reached", numRetry + 1)
      else mainSeqFuel attempt limit fuel (numRetry + 1)

def mainSeqC (attempt : Nat → Except String QuoteResult) (limit : Nat) (numRetry : Nat) :
    Except String QuoteResult × Nat :=
  mainSeqFuel attempt limit (limit - numRetry) numRetry

/- getRandomQuote, src/random-wikiquote.js lines 172-202, for a given config and
   a world function giving the environment of each attempt. -/
def getRandomQuote (cfg : Config) (world : Nat → AttemptEnv) : Except String QuoteResult :=
  (mainSeqC (fun n => attemptPrimary cfg (world n)) RETRY_LIMIT 0).1

/- getRandomQuote of the src/unnamed/part_001 variant (lines 140-188). -/
def getRandomQuoteP1 (cfg : Config) (world : Nat → AttemptEnv) : Except String QuoteResult :=
  (mainSeqC (fun n => attemptP1 cfg (world n)) RETRY_LIMIT 0).1

/- Concrete instances used to settle and witness the claims. -/

/- A configuration with minLength lowered to 0 by a setter call. -/
def cfgZeroMin : Config := { minLength := 0, maxLength := 300, numericLimit := 1/10 }

/- The section outlines of the specification's SectionSelector test (section 8),
   with indexes "1".."5" for the outline numbers ["1","1.1","1.2","2","2.1"] and
   "1".."3" for ["1","2","3"]. -/
def exOutline1 : List SectionEntry :=
  [{ index := "1", number := "1" }, { index := "2", number := "1.1" },
   { index := "3", number := "1.2" }, { index := "4", number := "2" },
   { index := "5", number := "2.1" }]

def exOutline2 : List SectionEntry :=
  [{ index := "1", number := "1" }, { index := "2", number := "2" },
   { index := "3", number := "3" }]

/- The markup of the specification's QuoteExtractor test (section 8):
   ul / li [ Hello b[world] sup[[1]] ul[li[note]] ], inside the DIV wrapper the
   remote API puts around every rendered section. -/
def exLi : Node :=
  .elem "LI" [.text "Hello ", .elem "B" [.text "world"], .text " ",
    .elem "SUP" [.text "[1]"], .elem "UL" [.elem "LI" [.text "note"]]]

def exDiv : Node := .elem "DIV" [.elem "UL" [exLi]]

/- A section that exists but renders to markup with no list items at all. -/
def emptyParse : ParseText := { title := "T", textStar := .elem "DIV" [] }

/- A 42-character prose candidate that passes the default validation. -/
def toBeQuote : String := "To be or not to be, that is the question."

def goodNode : Node := .elem "DIV" [.elem "UL" [.elem "LI" [.text toBeQuote]]]

def goodParse : ParseText := { title := "T", textStar := goodNode }

/- A world whose every attempt fails at the sectioning stage. -/
def worldAllFail : Nat → AttemptEnv := fun _ =>
  { randomResp := .ok 42, sectionsResp := .error "Remote failure.",
    quotesResp := .error "Remote failure.", rSection := 0, rQuote := 0 }

/- A world whose first attempt succeeds with the toBeQuote candidate. -/
def worldGood : Nat → AttemptEnv := fun _ =>
  { randomResp := .ok 42,
    sectionsResp := .ok { title := "T", sections := [{ index := "1", number := "1" }] },
    quotesResp := .ok (some goodParse), rSection := 0, rQuote := 0 }

theorem isQuoteValid_iff (cfg : Config) (s : String) (hs : s ≠ "") :
    isQuoteValid cfg (some s) = true ↔ specValidCond cfg s := by
  simp only [isQuoteValid, if_neg hs, specValidCond, digitFraction]
  constructor
  · intro h
    by_cases hc : (s.length : Rat) < cfg.minLength ∨ (s.length : Rat) > cfg.maxLength ∨
        ((countDigits s : Rat) / (s.length : Rat)) > cfg.numericLimit
    · simp [hc] at h
    · push_neg at hc
      exact ⟨hc.1, hc.2.1, hc.2.2⟩
  · intro h
    have hc : ¬ ((s.length : Rat) < cfg.minLength ∨ (s.length : Rat) > cfg.maxLength ∨
        ((countDigits s : Rat) / (s.length : Rat)) > cfg.numericLimit) := by
      push_neg
      exact ⟨h.1, h.2.1, h.2.2⟩
    simp [hc]

theorem length_ne_zero_of_ne_empty (s : String) (hs : s ≠ "") : s.length ≠ 0 := by
  intro h
  apply hs
  cases s with
  | mk data =>
    cases data with
    | nil => rfl
    | cons c cs => simp [String.length] at h

theorem randomNum_zero (n : Nat) : randomNum 0 n = 0 := by
  simp [randomNum]

theorem randomNum_lt (r : Rat) (hr0 : 0 ≤ r) (hr1 : r < 1) (n : Nat) (hn : 0 < n) :
    randomNum r n < n := by
  unfold randomNum
  have h1 : (0:Rat) ≤ r * (n : Rat) := mul_nonneg hr0 (by positivity)
  have h2 : r * (n : Rat) < (n : Rat) := by
    calc r * (n : Rat) < 1 * (n : Rat) := by
          apply mul_lt_mul_of_pos_right hr1
          exact_mod_cast hn
      _ = (n : Rat) := one_mul _
  have h3 : Int.floor (r * (n : Rat)) < (n : Int) := by
    rw [Int.floor_lt]
    push_cast
    exact h2
  have h4 : 0 ≤ Int.floor (r * (n : Rat)) := Int.floor_nonneg.mpr h1
  omega

theorem mainSeqFuel_error (attempt : Nat → Except String QuoteResult) (limit : Nat) :
    ∀ (fuel numRetry : Nat) (e : String),
      (mainSeqFuel attempt limit fuel numRetry).1 = .error e → e = "Retry limit reached" := by
  intro fuel
  induction fuel with
  | zero =>
    intro r e h
    simp only [mainSeqFuel] at h
    exact (Except.error.inj h).symm
  | succ f ih =>
    intro r e h
    simp only [mainSeqFuel] at h
    cases hA : attempt r with
    | ok q =>
      rw [hA] at h
      simp at h
    | error e2 =>
      rw [hA] at h
      by_cases hc : r + 1 ≥ limit
      · rw [if_pos hc] at h
        exact (Except.error.inj h).symm
      · rw [if_neg hc] at h
        exact ih (r + 1) e h

theorem mainSeqFuel_ok (attempt : Nat → Except String QuoteResult) (limit : Nat) :
    ∀ (fuel numRetry : Nat) (q : QuoteResult),
      (mainSeqFuel attempt limit fuel numRetry).1 = .ok q → ∃ n, attempt n = .ok q := by
  intro fuel
  induction fuel with
  | zero =>
    intro r q h
    simp only [mainSeqFuel] at h
    exact Except.noConfusion h
  | succ f ih =>
    intro r q h
    simp only [mainSeqFuel] at h
    cases hA : attempt r with
    | ok q2 =>
      rw [hA] at h
      exact ⟨r, by rw [hA, Except.ok.inj h]⟩
    | error e2 =>
      rw [hA] at h
      by_cases hc : r + 1 ≥ limit
      · rw [if_pos hc] at h
        simp at h
      · rw [if_neg hc] at h
        exact ih (r + 1) q h

theorem mainSeqFuel_allFail (attempt : Nat → Except String QuoteResult) (limit : Nat)
    (hall : ∀ n, ∃ e, attempt n = .error e) :
    ∀ (fuel numRetry : Nat), fuel = limit - numRetry → numRetry < limit →
      mainSeqFuel attempt limit fuel numRetry = (.error "Retry limit reached", limit) := by
  intro fuel
  induction fuel with
  | zero =>
    intro r hf hr
    omega
  | succ f ih =>
    intro r hf hr
    obtain ⟨e, he⟩ := hall r
    simp only [mainSeqFuel, he]
    by_cases hc : r + 1 ≥ limit
    · rw [if_pos hc]
      have : r + 1 = limit := by omega
      rw [this]
    · rw [if_neg hc]
      exact ih (r + 1) (by omega) (by omega)

theorem mainSeqC_ok_first (attempt : Nat → Except String QuoteResult) (limit : Nat)
    (q : QuoteResult) (h : attempt 0 = .ok q) (hl : 0 < limit) :
    mainSeqC attempt limit 0 = (.ok q, 1) := by
  unfold mainSeqC
  obtain ⟨l, rfl⟩ : ∃ l, limit = l + 1 := ⟨limit - 1, by omega⟩
  simp only [Nat.sub_zero, mainSeqFuel, h]

theorem mainSeqC_step (attempt : Nat → Except String QuoteResult) (limit k : Nat) (e : String)
    (hf : attempt k = .error e) (hk : k + 1 < limit) :
    mainSeqC attempt limit k = mainSeqC attempt limit (k + 1) := by
  unfold mainSeqC
  have h7 : limit - k = (limit - (k + 1)) + 1 := by omega
  rw [h7]
  simp only [mainSeqFuel, hf]
  rw [if_neg (by omega)]

theorem getQuotesForSection_ok (cfg : Config) (pid : Nat) (sec : String)
    (resp : Except String (Option ParseText)) (b : QuoteBatch)
    (h : getQuotesForSection cfg pid sec resp = .ok b) :
    (∀ s ∈ b.quotes, isQuoteValid cfg (some s) = true) ∧ b.quotes ≠ [] := by
  cases resp with
  | error e => simp [getQuotesForSection] at h
  | ok o =>
    cases o with
    | none => simp [getQuotesForSection] at h
    | some d =>
      simp only [getQuotesForSection] at h
      by_cases hp : (candidateStrings d.textStar).filter (fun q => isQuoteValid cfg (some q)) = []
      · rw [if_pos hp] at h
        simp at h
      · rw [if_neg hp] at h
        have hb := Except.ok.inj h
        constructor
        · intro s hs
          rw [← hb] at hs
          exact (List.mem_filter.mp hs).2
        · rw [← hb]
          exact hp

theorem chooseQuote_mem (r : Rat) (hr0 : 0 ≤ r) (hr1 : r < 1) (b : QuoteBatch)
    (hne : b.quotes ≠ []) :
    ∃ s, (chooseQuote r b).quote = some s ∧ s ∈ b.quotes := by
  have hlen : 0 < b.quotes.length := List.length_pos.mpr hne
  have hidx := randomNum_lt r hr0 hr1 _ hlen
  refine ⟨b.quotes.get ⟨randomNum r b.quotes.length, hidx⟩, ?_, List.get_mem _ _ _⟩
  simp only [chooseQuote, randomQuote]
  exact List.get?_eq_get hidx

theorem attemptPrimary_ok (cfg : Config) (env : AttemptEnv) (res : QuoteResult)
    (h : attemptPrimary cfg env = .ok res) (hr0 : 0 ≤ env.rQuote) (hr1 : env.rQuote < 1) :
    ∃ s, res.quote = some s ∧ isQuoteValid cfg (some s) = true := by
  unfold attemptPrimary at h
  cases h1 : getRandomPage env.randomResp with
  | error e => rw [h1] at h; simp [Except.bind] at h
  | ok pageId =>
    rw [h1] at h
    simp only [Except.bind] at h
    cases h2 : getSectionsForPage pageId env.sectionsResp with
    | error e => rw [h2] at h; simp [Except.bind] at h
    | ok data =>
      rw [h2] at h
      simp only [Except.bind] at h
      cases h3 : getQuotesForSection cfg data.pageId
          (randomSection env.rSection data.sections) env.quotesResp with
      | error e => rw [h3] at h; simp [Except.map] at h
      | ok quotes =>
        rw [h3] at h
        simp only [Except.map] at h
        obtain ⟨hvalid, hne⟩ := getQuotesForSection_ok cfg data.pageId
          (randomSection env.rSection data.sections) env.quotesResp quotes h3
        obtain ⟨s, hsome, hmem⟩ := chooseQuote_mem env.rQuote hr0 hr1 quotes hne
        refine ⟨s, ?_, hvalid s hmem⟩
        rw [← Except.ok.inj h]
        exact hsome

theorem sectionIndexesOf_eq_spec (sections : List SectionEntry) :
    sectionIndexesOf sections = specSectionIndexes sections := by
  simp only [sectionIndexesOf, specSectionIndexes]
  have hfilter : sections.filter (fun s =>
      decide ((jsSplit s.number '.').length > 1) && decide ((jsSplit s.number '.').headD "" = "1"))
      = sections.filter (fun s =>
      decide (2 ≤ (jsSplit s.number '.').length) &&
        decide ((jsSplit s.number '.').head? = some "1")) := by
    apply List.filter_congr
    intro s _
    show (decide ((jsSplit s.number '.').length > 1) &&
        decide ((jsSplit s.number '.').headD "" = "1"))
      = (decide (2 ≤ (jsSplit s.number '.').length) &&
        decide ((jsSplit s.number '.').head? = some "1"))
    cases h : jsSplit s.number '.' with
    | nil => rfl
    | cons a as =>
      have e1 : decide ((a :: as).length > 1) = decide (2 ≤ (a :: as).length) := by
        rw [decide_eq_decide]
        omega
      have e2 : decide ((a :: as).headD "" = "1") = decide ((a :: as).head? = some "1") := by
        rw [decide_eq_decide]
        simp
      rw [e1, e2]
  rw [hfilter]

theorem sectionIndexesOf_ne_nil (sections : List SectionEntry) :
    sectionIndexesOf sections ≠ [] := by
  simp only [sectionIndexesOf]
  split
  · simp
  · rename_i h
    exact h

theorem toBeQuote_ne : toBeQuote ≠ "" := by decide

theorem toBeQuote_valid : isQuoteValid defaultConfig (some toBeQuote) = true := by
  have h0 : ¬ ((toBeQuote.length : Rat) < defaultConfig.minLength ∨
      (toBeQuote.length : Rat) > defaultConfig.maxLength ∨
      ((countDigits toBeQuote : Rat) / (toBeQuote.length : Rat)) > defaultConfig.numericLimit) := by
    rw [show toBeQuote.length = 41 by decide, show countDigits toBeQuote = 0 by decide]
    norm_num [defaultConfig]
  simp [isQuoteValid, toBeQuote_ne, h0]

theorem goodParse_candidates : candidateStrings goodNode = [toBeQuote] := by decide

theorem goodParse_batch (pid : Nat) (sec : String) :
    getQuotesForSection defaultConfig pid sec (.ok (some goodParse)) =
      .ok { titles := "T", quotes := [toBeQuote] } := by
  simp only [getQuotesForSection]
  rw [show goodParse.textStar = goodNode from rfl, goodParse_candidates]
  simp [List.filter, toBeQuote_valid, goodParse]

theorem attemptGood_ok :
    attemptPrimary defaultConfig (worldGood 0) = .ok { title := "T", quote := some toBeQuote } := by
  simp [attemptPrimary, worldGood, getRandomPage, getSectionsForPage, Except.bind, Except.map,
    goodParse_batch, chooseQuote, randomQuote, randomNum_zero]

theorem worldGood_run :
    getRandomQuote defaultConfig worldGood = .ok { title := "T", quote := some toBeQuote } := by
  unfold getRandomQuote
  rw [mainSeqC_ok_first (fun n => attemptPrimary defaultConfig (worldGood n)) RETRY_LIMIT
    { title := "T", quote := some toBeQuote } attemptGood_ok (by decide)]

/-- C1: for every successful result of getRandomQuote (primary variant), the
returned quote is present and satisfies minLength ≤ length ≤ maxLength and
digitRatio ≤ numericLimit under the configuration in effect for the run (a
single configuration value governs an attempt, mirroring that validation happens
at extraction and acceptance follows in the same attempt).  The Math.random
draws of the world are assumed to lie in [0, 1), which is the contract of
Math.random. -/
theorem quoteResult_valid (cfg : Config) (world : Nat → AttemptEnv)
    (hr : ∀ n, 0 ≤ (world n).rQuote ∧ (world n).rQuote < 1)
    (res : QuoteResult) (hok : getRandomQuote cfg world = .ok res) :
    ∃ s, res.quote = some s ∧ cfg.minLength ≤ (s.length : Rat) ∧
      (s.length : Rat) ≤ cfg.maxLength ∧ digitFraction s ≤ cfg.numericLimit := by
  unfold getRandomQuote mainSeqC at hok
  obtain ⟨n, hn⟩ := mainSeqFuel_ok _ _ _ _ _ hok
  obtain ⟨s, hsome, hvalid⟩ := attemptPrimary_ok cfg (world n) res hn (hr n).1 (hr n).2
  have hs : s ≠ "" := by
    intro h
    rw [h] at hvalid
    simp [isQuoteValid] at hvalid
  obtain ⟨h1, h2, h3⟩ := (isQuoteValid_iff cfg s hs).mp hvalid
  exact ⟨s, hsome, h1, h2, h3⟩

/-- Witness for C1 at a concrete world: the accepted quote satisfies all three
thresholds under the default configuration. -/
theorem quoteResult_valid_witness :
    defaultConfig.minLength ≤ (toBeQuote.length : Rat) ∧
      (toBeQuote.length : Rat) ≤ defaultConfig.maxLength ∧
      digitFraction toBeQuote ≤ defaultConfig.numericLimit := by
  obtain ⟨s, hs, h⟩ := quoteResult_valid defaultConfig worldGood
    (fun n => ⟨by norm_num [worldGood], by norm_num [worldGood]⟩) _ worldGood_run
  have heq : toBeQuote = s := Option.some.inj hs
  rw [heq]
  exact h

/-- C2 counterexample: with minLength set to 0, the code's validator rejects the
empty string while the specification's iff condition (0 ≤ 0 ≤ 300 and
digitRatio 0 ≤ 0.1, with digitRatio("") = 0/0 = 0) accepts it, so the claimed
equivalence fails for the empty candidate. -/
theorem validate_iff_fails_on_empty :
    ¬ (isQuoteValid cfgZeroMin (some "") = true ↔ specValidCond cfgZeroMin "") := by
  intro hiff
  have h1 : isQuoteValid cfgZeroMin (some "") = false := rfl
  have h2 : specValidCond cfgZeroMin "" := by
    have hd : digitFraction "" = 0 := by
      unfold digitFraction
      rw [show countDigits "" = 0 from rfl, show ("".length) = 0 from rfl]
      norm_num
    refine ⟨?_, ?_, ?_⟩
    · rw [show ("".length) = 0 from rfl]
      norm_num [cfgZeroMin]
    · rw [show ("".length) = 0 from rfl]
      norm_num [cfgZeroMin]
    · rw [hd]
      norm_num [cfgZeroMin]
  rw [hiff.mpr h2] at h1
  exact Bool.noConfusion h1

/-- C2 (amended): for every nonempty candidate string s, validate(s) is true iff
minLength ≤ len(s) ≤ maxLength and digitRatio(s) ≤ numericLimit, for the
configuration passed at call time (so a setter call before the validation is
visible); the empty string is always rejected regardless of configuration. -/
theorem validate_iff_thresholds (cfg : Config) (s : String) (hs : s ≠ "") :
    isQuoteValid cfg (some s) = true ↔ specValidCond cfg s :=
  isQuoteValid_iff cfg s hs

/-- Witness for C2 (amended) at the default configuration and a concrete
nonempty candidate. -/
theorem validate_iff_thresholds_witness :
    isQuoteValid defaultConfig (some toBeQuote) = true ↔ specValidCond defaultConfig toBeQuote :=
  validate_iff_thresholds defaultConfig toBeQuote (by decide)

/-- C3: the sections collected are exactly those whose dotted number has at
least two components with first component "1" (stated as agreement with the
specification-side selector), the result is never empty, and the two outline
examples produce the indexes of "1.1" and "1.2" (namely "2" and "3") and the
fallback ["1"] respectively. -/
theorem selectSections_correct :
    (∀ sections : List SectionEntry, sectionIndexesOf sections = specSectionIndexes sections) ∧
      (∀ sections : List SectionEntry, sectionIndexesOf sections ≠ []) ∧
      sectionIndexesOf exOutline1 = ["2", "3"] ∧
      sectionIndexesOf exOutline2 = ["1"] :=
  ⟨sectionIndexesOf_eq_spec, sectionIndexesOf_ne_nil, by decide, by decide⟩

/-- C4 counterexample: on the specification's example markup the extractor does
not produce "Hello world": the superscript element is in the code's fixed
allow-list ELEMENTS_TO_KEEP, so its text survives. -/
theorem extractor_example_ne_spec : candidateStrings exDiv ≠ ["Hello world"] := by decide

/-- C4 (amended): the per-item pipeline (replace non-allow-listed immediate
children by a single space, take the visible text, collapse whitespace runs,
trim) yields exactly one candidate on the example markup, equal to
"Hello world [1]", because SUP belongs to the code's allow-list while the
nested list is replaced by a space. -/
theorem extractor_example : candidateStrings exDiv = ["Hello world [1]"] := by decide

/-- C5 counterexample: in the primary implementation a section that exists but
yields no candidate strings is not a success with an empty list: it is rejected
with "Section has no valid quote.". -/
theorem empty_batch_rejected_primary :
    getQuotesForSection defaultConfig 42 "1" (.ok (some emptyParse)) =
      .error "Section has no valid quote." := rfl

/-- C5 (amended): in the part_001 variant extraction always succeeds when the
section parses, including with an empty candidate list, and the failure then
arises only downstream when checkQuote sees the undefined chosen quote; the
primary implementation instead rejects inside getQuotesForSection. -/
theorem empty_batch_ok_p1 :
    (∀ (pid : Nat) (sec : String) (d : ParseText), ∃ b,
        getQuotesForSectionP1 pid sec (.ok (some d)) = .ok b) ∧
      getQuotesForSectionP1 42 "1" (.ok (some emptyParse)) =
        .ok { titles := "T", quotes := [] } ∧
      (∀ (cfg : Config) (r : Rat),
        chooseAndCheck cfg r { titles := "T", quotes := [] } = .error "No quote found") :=
  ⟨fun _ _ _d => ⟨_, rfl⟩, rfl, fun _ _ => rfl⟩

/-- C6: if every attempt fails, getRandomQuote performs exactly RETRY_LIMIT
attempts and fails with "Retry limit reached"; and that string is the only
error ever surfaced to the caller, every per-stage failure being caught by
checkRetry and converted into a retry. -/
theorem retry_exhaustion (cfg : Config) (world : Nat → AttemptEnv) :
    ((∀ n, ∃ e, attemptPrimary cfg (world n) = .error e) →
        mainSeqC (fun n => attemptPrimary cfg (world n)) RETRY_LIMIT 0 =
          (.error "Retry limit reached", RETRY_LIMIT)) ∧
      ∀ e, getRandomQuote cfg world = .error e → e = "Retry limit reached" := by
  constructor
  · intro hall
    unfold mainSeqC
    exact mainSeqFuel_allFail _ RETRY_LIMIT hall _ 0 rfl (by decide)
  · intro e he
    unfold getRandomQuote mainSeqC at he
    exact mainSeqFuel_error _ RETRY_LIMIT _ 0 e he

/-- Witness for C6: a concrete world failing at the sectioning stage on every
attempt exhausts exactly RETRY_LIMIT attempts and surfaces the retry error. -/
theorem retry_exhaustion_witness :
    mainSeqC (fun n => attemptPrimary defaultConfig (worldAllFail n)) RETRY_LIMIT 0 =
      (.error "Retry limit reached", RETRY_LIMIT) :=
  (retry_exhaustion defaultConfig worldAllFail).1 (fun _ => ⟨"Remote failure.", rfl⟩)

/-- C7: per attempt the part_001 orchestrator chooses the single index-randomNum
candidate and validates only it (the attempt outcome depends only on the entry
at the chosen index, not on the other candidates of the batch); once all stages
have succeeded the attempt is exactly chooseAndCheck on the batch; and a failed
attempt makes the run continue with the next attempt, which restarts from page
selection (attemptP1 begins with getRandomPage by definition).  The pick is
modelled by the code's Math.floor(Math.random() * length) with the draw as an
oracle; uniformity of Math.random itself is a property of the host environment,
outside the embedded code. -/
theorem choose_one_validate_one (cfg : Config) :
    (∀ (r : Rat) (t : String) (qs qs2 : List String),
        qs.length = qs2.length →
        qs.get? (randomNum r qs.length) = qs2.get? (randomNum r qs2.length) →
        chooseAndCheck cfg r { titles := t, quotes := qs } =
          chooseAndCheck cfg r { titles := t, quotes := qs2 }) ∧
      (∀ (env : AttemptEnv) (pid : Nat) (data : SectionOutline) (b : QuoteBatch),
        getRandomPage env.randomResp = .ok pid →
        getSectionsForPage pid env.sectionsResp = .ok data →
        getQuotesForSectionP1 data.pageId (randomSection env.rSection data.sections)
            env.quotesResp = .ok b →
        attemptP1 cfg env = chooseAndCheck cfg env.rQuote b) ∧
      ∀ (world : Nat → AttemptEnv) (k : Nat) (e : String),
        attemptP1 cfg (world k) = .error e → k + 1 < RETRY_LIMIT →
        mainSeqC (fun n => attemptP1 cfg (world n)) RETRY_LIMIT k =
          mainSeqC (fun n => attemptP1 cfg (world n)) RETRY_LIMIT (k + 1) := by
  refine ⟨?_, ?_, ?_⟩
  · intro r t qs qs2 hlen hget
    unfold chooseAndCheck chooseQuote randomQuote
    rw [hget]
  · intro env pid data b h1 h2 h3
    unfold attemptP1
    rw [h1]
    simp only [Except.bind]
    rw [h2]
    simp only [Except.bind]
    rw [h3]
  · intro world k e hf hk
    exact mainSeqC_step _ RETRY_LIMIT k e hf hk

/-- Witness for C7: replacing the non-chosen candidate of a batch does not
change the attempt outcome, and a concrete failed attempt at retry count 0
continues as the run starting at retry count 1. -/
theorem choose_one_validate_one_witness :
    chooseAndCheck defaultConfig 0 { titles := "T", quotes := ["1997", "alpha"] } =
        chooseAndCheck defaultConfig 0 { titles := "T", quotes := ["1997", "beta"] } ∧
      mainSeqC (fun n => attemptP1 defaultConfig (worldAllFail n)) RETRY_LIMIT 0 =
        mainSeqC (fun n => attemptP1 defaultConfig (worldAllFail n)) RETRY_LIMIT 1 :=
  ⟨(choose_one_validate_one defaultConfig).1 0 "T" ["1997", "alpha"] ["1997", "beta"] rfl
      (by rw [randomNum_zero, randomNum_zero]; rfl),
    (choose_one_validate_one defaultConfig).2.2 worldAllFail 0 "Remote failure." rfl (by decide)⟩

/-- C8: the validator returns false on the empty string and on an absent (null)
candidate for every configuration, including one with a zero or negative
minLength; totality and absence of side effects hold by construction, the
validator being a plain function. -/
theorem validate_falsy_false (cfg : Config) :
    isQuoteValid cfg (some "") = false ∧ isQuoteValid cfg none = false :=
  ⟨rfl, rfl⟩

/-- Witness for C8 at concrete configurations, including a negative minLength. -/
theorem validate_falsy_false_witness :
    isQuoteValid cfgZeroMin (some "") = false ∧ isQuoteValid cfgZeroMin none = false :=
  validate_falsy_false cfgZeroMin

/-- C9: in the primary implementation every string of a successful
getQuotesForSection batch passes the validity check, a successful batch is
never empty, extraction fails with "Section has no valid quote." when no
candidate passes, and any candidate chosen from a successful batch is valid. -/
theorem primary_extraction_prefilters (cfg : Config) (pid : Nat) (sec : String) :
    (∀ (resp : Except String (Option ParseText)) (b : QuoteBatch),
        getQuotesForSection cfg pid sec resp = .ok b →
        (∀ s ∈ b.quotes, isQuoteValid cfg (some s) = true) ∧ b.quotes ≠ []) ∧
      (∀ d : ParseText,
        (candidateStrings d.textStar).filter (fun q => isQuoteValid cfg (some q)) = [] →
        getQuotesForSection cfg pid sec (.ok (some d)) = .error "Section has no valid quote.") ∧
      ∀ (resp : Except String (Option ParseText)) (b : QuoteBatch) (r : Rat) (s : String),
        getQuotesForSection cfg pid sec resp = .ok b → (chooseQuote r b).quote = some s →
        isQuoteValid cfg (some s) = true := by
  refine ⟨?_, ?_, ?_⟩
  · intro resp b hok
    exact getQuotesForSection_ok cfg pid sec resp b hok
  · intro d hempty
    simp [getQuotesForSection, hempty]
  · intro resp b r s hok hchoose
    obtain ⟨hvalid, _⟩ := getQuotesForSection_ok cfg pid sec resp b hok
    exact hvalid s (List.get?_mem hchoose)

/-- Witness for C9 on a concrete successful batch. -/
theorem primary_extraction_prefilters_witness :
    isQuoteValid defaultConfig (some toBeQuote) = true :=
  ((primary_extraction_prefilters defaultConfig 42 "1").1 (.ok (some goodParse))
      { titles := "T", quotes := [toBeQuote] } (goodParse_batch 42 "1")).1
    toBeQuote (List.mem_singleton.mpr rfl)

/-- C10: the digit-percentage division is never taken on a zero-length string:
the division-guarded validator, which returns none if the division point is
reached with a zero length, agrees with the real validator everywhere and in
particular never returns none, because every falsy candidate is rejected before
the length is read. -/
theorem digit_division_guarded (cfg : Config) (quote : Option String) :
    isQuoteValidChecked cfg quote = some (isQuoteValid cfg quote) := by
  cases quote with
  | none => rfl
  | some s =>
    by_cases hs : s = ""
    · subst hs
      rfl
    · have hlen : s.length ≠ 0 := length_ne_zero_of_ne_empty s hs
      simp [isQuoteValidChecked, isQuoteValid, hs, hlen]

end Wikiquote
